import Mathlib

/-!
Shallow embedding of the SchoolVibe schema (`src/uririconnect/models.py`).

The source file is a declarative Django model module: ten entity classes,
each a table with typed fields, foreign keys (`on_delete=CASCADE`),
uniqueness constraints, `auto_now_add` / `auto_now` timestamps, a
`choices`-restricted status field, a `DecimalField(max_digits=5,
decimal_places=2)` score, and a `__str__` method per class.

The embedding below represents the database as explicit lists of rows and
the storage layer as explicit insert / update / delete operations:
  - every declared constraint (foreign-key existence, uniqueness,
    max_length, choices membership, decimal digit bounds) is checked by
    the insert and update operations, which return `Option DB`;
  - `auto_now_add` fields (`created_at`, `sent_at`, `time_reported`) are
    set by inserts from the write clock and never taken from the caller;
    `auto_now` (`updated_at`) is set on every insert and update;
  - cascading delete is realised by explicit traversal of the dependent
    tables, children removed together with their parents;
  - each `__str__` method is embedded as a function returning a `PyVal`
    (the Python value the method returns, which need not be a string).
-/

namespace SchoolVibe

/-- A fixed-point decimal value, mirroring Python's `Decimal` in the form
`(mantissa, scale)` with value `mantissa / 10 ^ scale`; `scale` is the
number of digits after the decimal point (`Decimal("1234.5")` is
`⟨12345, 1⟩`). -/
structure Decimal where
  mantissa : Int
  scale : Nat
deriving DecidableEq

/-- Number of base-10 digit positions used by `n` with bounded fuel;
the fuel is always sufficient when it is at least `n`. -/
def digitLenAux : Nat → Nat → Nat
  | _, 0 => 0
  | 0, _ => 0
  | fuel + 1, n + 1 => 1 + digitLenAux fuel ((n + 1) / 10)

/-- Length of the base-10 digit string of `n`, with `digitLen 0 = 1`
(Python's `Decimal(0).as_tuple()` digit tuple is `(0,)`). -/
def digitLen (n : Nat) : Nat :=
  if n = 0 then 1 else digitLenAux n n

/-- Total significant digits of a decimal, as Django's `DecimalValidator`
computes it: `max(len(digit_tuple), abs(exponent))`. -/
def decTotalDigits (d : Decimal) : Nat :=
  max (digitLen d.mantissa.natAbs) d.scale

/-- Number of decimal places of a decimal (its negated exponent). -/
def decDecimalPlaces (d : Decimal) : Nat :=
  d.scale

/-- Django's `DecimalValidator(max_digits, decimal_places)` check applied
to a value: total digits, decimal places and whole digits each bounded. -/
def decimalCheck (maxDigits decimalPlaces : Nat) (d : Decimal) : Bool :=
  decide (decTotalDigits d ≤ maxDigits) &&
    decide (decDecimalPlaces d ≤ decimalPlaces) &&
    decide (decTotalDigits d - decDecimalPlaces d ≤ maxDigits - decimalPlaces)

/-- Row of the `Role` table (`class Role`, models.py lines 23-30). -/
structure Role where
  role_id : Nat
  role_name : String
  created_at : Nat
  updated_at : Nat
deriving DecidableEq

/-- Row of the `User` table (`class User`, models.py lines 32-44);
`role_id` stores the id of the referenced `Role`. -/
structure User where
  user_id : Nat
  role_id : Nat
  first_name : String
  last_name : String
  email_address : String
  user_password : String
  phone_number : String
  created_at : Nat
  updated_at : Nat
deriving DecidableEq

/-- Row of the `Event` table (`class Event`, models.py lines 46-57). -/
structure Event where
  event_id : Nat
  title : String
  event_description : Option String
  event_date : Option Nat
  event_location : Option String
  organizer_id : Nat
  created_at : Nat
  updated_at : Nat
deriving DecidableEq

/-- Row of the `EventRegistration` table (models.py lines 59-68). -/
structure EventRegistration where
  event_reg_id : Nat
  event_id : Nat
  user_id : Nat
  registration_date : Option Nat
  created_at : Nat
  updated_at : Nat
deriving DecidableEq

/-- Row of the `Resource` table (models.py lines 70-80). -/
structure Resource where
  resource_id : Nat
  title : String
  resource_description : Option String
  file_path : Option String
  uploaded_by : Nat
  created_at : Nat
  updated_at : Nat
deriving DecidableEq

/-- Row of the `Class` table (models.py lines 82-90). -/
structure Class where
  class_id : Nat
  class_name : String
  teacher_id : Nat
  created_at : Nat
  updated_at : Nat
deriving DecidableEq

/-- Row of the `Message` table (models.py lines 92-103); `sent_at` is an
`auto_now_add` timestamp. -/
structure Message where
  message_id : Nat
  sender_id : Nat
  receiver_id : Nat
  message_content : Option String
  sent_at : Nat
  is_read : Bool
  created_at : Nat
  updated_at : Nat
deriving DecidableEq

/-- Row of the `SecurityIncident` table (models.py lines 105-115);
`time_reported` is an `auto_now_add` timestamp and `report_status` is a
`choices`-restricted character field. -/
structure SecurityIncident where
  security_id : Nat
  reporter_id : Nat
  incident_details : Option String
  time_reported : Nat
  report_status : String
  created_at : Nat
  updated_at : Nat
deriving DecidableEq

/-- Row of the `Assignment` table (models.py lines 117-128). -/
structure Assignment where
  assignment_id : Nat
  title : String
  assignment_description : Option String
  due_date : Option Nat
  teacher_id : Nat
  class_id : Nat
  created_at : Nat
  updated_at : Nat
deriving DecidableEq

/-- Row of the `Grade` table (models.py lines 130-140); `score` is a
`DecimalField(max_digits=5, decimal_places=2, null=True)`. -/
structure Grade where
  grade_id : Nat
  assignment_id : Nat
  student_id : Nat
  score : Option Decimal
  grading_date : Option Nat
  created_at : Nat
  updated_at : Nat
deriving DecidableEq

/-- The whole database: one list of rows per declared model. -/
structure DB where
  roles : List Role
  users : List User
  events : List Event
  event_registrations : List EventRegistration
  resources : List Resource
  classes : List Class
  messages : List Message
  security_incidents : List SecurityIncident
  assignments : List Assignment
  grades : List Grade
deriving DecidableEq

/-- The empty database. -/
def emptyDB : DB :=
  { roles := [], users := [], events := [], event_registrations := [],
    resources := [], classes := [], messages := [], security_incidents := [],
    assignments := [], grades := [] }

/-- Next value of an `AutoField` primary key: one past the largest id in
use. -/
def nextId (ids : List Nat) : Nat :=
  ids.foldr Nat.max 0 + 1

/-- The three values of the `report_status` `choices` list
(models.py line 110). -/
def statusChoices : List String :=
  ["Reported", "Under Investigation", "Resolved"]

/-- Length bound check for a nullable character field. -/
def optLenLe (o : Option String) (n : Nat) : Bool :=
  match o with
  | Option.none => true
  | Option.some s => decide (s.length ≤ n)

/-- Validation of a nullable `score` against `DecimalField(5, 2)`. -/
def scoreOk (o : Option Decimal) : Bool :=
  match o with
  | Option.none => true
  | Option.some d => decimalCheck 5 2 d

/-- Foreign-key check: a `Role` row with this id exists. -/
def roleExists (db : DB) (rid : Nat) : Bool :=
  db.roles.any (fun r => r.role_id == rid)

/-- Foreign-key check: a `User` row with this id exists. -/
def userExists (db : DB) (uid : Nat) : Bool :=
  db.users.any (fun u => u.user_id == uid)

/-- Foreign-key check: an `Event` row with this id exists. -/
def eventExists (db : DB) (eid : Nat) : Bool :=
  db.events.any (fun e => e.event_id == eid)

/-- Foreign-key check: a `Class` row with this id exists. -/
def classExists (db : DB) (cid : Nat) : Bool :=
  db.classes.any (fun c => c.class_id == cid)

/-- Foreign-key check: an `Assignment` row with this id exists. -/
def assignmentExists (db : DB) (aid : Nat) : Bool :=
  db.assignments.any (fun a => a.assignment_id == aid)

/-- Row-existence check for updates of `EventRegistration`. -/
def registrationExists (db : DB) (rid : Nat) : Bool :=
  db.event_registrations.any (fun r => r.event_reg_id == rid)

/-- Row-existence check for updates of `Resource`. -/
def resourceExists (db : DB) (rid : Nat) : Bool :=
  db.resources.any (fun r => r.resource_id == rid)

/-- Row-existence check for updates of `Message`. -/
def messageExists (db : DB) (mid : Nat) : Bool :=
  db.messages.any (fun m => m.message_id == mid)

/-- Row-existence check for updates of `SecurityIncident`. -/
def incidentExists (db : DB) (sid : Nat) : Bool :=
  db.security_incidents.any (fun s => s.security_id == sid)

/-- Row-existence check for updates of `Grade`. -/
def gradeExists (db : DB) (gid : Nat) : Bool :=
  db.grades.any (fun g => g.grade_id == gid)

/-- An SQL `UPDATE ... WHERE pk = id`: apply `g` to the rows whose
primary key is `id`, leave all other rows untouched. -/
def updRow {α : Type} (pk : α → Nat) (id : Nat) (g : α → α) (l : List α) : List α :=
  l.map (fun r => if pk r == id then g r else r)

/-- Insert a `Role` row: `role_name` is `CharField(max_length=50)`;
`created_at` / `updated_at` come from the write clock. -/
def insertRole (db : DB) (now : Nat) (name : String) : Option DB :=
  if name.length ≤ 50 then
    Option.some { db with roles := db.roles ++
      [{ role_id := nextId (db.roles.map (fun r => r.role_id)),
         role_name := name, created_at := now, updated_at := now }] }
  else Option.none

/-- Update a `Role` row by primary key. -/
def updateRole (db : DB) (now rid : Nat) (name : String) : Option DB :=
  if roleExists db rid = true ∧ name.length ≤ 50 then
    Option.some { db with roles := (updRow (fun r => r.role_id) rid
      (fun r => { r with
          role_name := name,
          updated_at := now }) db.roles) }
  else Option.none

/-- Insert a `User` row: the referenced `Role` must exist,
`email_address` and `phone_number` must be unique across the table
(`unique=True`), and each character field obeys its `max_length`. -/
def insertUser (db : DB) (now rid : Nat) (fn ln em pw ph : String) : Option DB :=
  if roleExists db rid = true
      ∧ db.users.any (fun u => u.email_address == em) = false
      ∧ db.users.any (fun u => u.phone_number == ph) = false
      ∧ fn.length ≤ 50 ∧ ln.length ≤ 50 ∧ em.length ≤ 254
      ∧ pw.length ≤ 255 ∧ ph.length ≤ 20 then
    Option.some { db with users := db.users ++
      [{ user_id := nextId (db.users.map (fun u => u.user_id)),
         role_id := rid, first_name := fn, last_name := ln,
         email_address := em, user_password := pw, phone_number := ph,
         created_at := now, updated_at := now }] }
  else Option.none

/-- Update a `User` row by primary key: uniqueness of `email_address`
and `phone_number` is checked against every other row. -/
def updateUser (db : DB) (now uid rid : Nat) (fn ln em pw ph : String) : Option DB :=
  if userExists db uid = true ∧ roleExists db rid = true
      ∧ db.users.any (fun u => u.user_id != uid && u.email_address == em) = false
      ∧ db.users.any (fun u => u.user_id != uid && u.phone_number == ph) = false
      ∧ fn.length ≤ 50 ∧ ln.length ≤ 50 ∧ em.length ≤ 254
      ∧ pw.length ≤ 255 ∧ ph.length ≤ 20 then
    Option.some { db with users := (updRow (fun u => u.user_id) uid
      (fun u => { u with
          role_id := rid,
          first_name := fn,
          last_name := ln,
          email_address := em,
          user_password := pw,
          phone_number := ph,
          updated_at := now }) db.users) }
  else Option.none

/-- Insert an `Event` row: the organizing `User` must exist. -/
def insertEvent (db : DB) (now : Nat) (title : String) (desc : Option String)
    (date : Option Nat) (loc : Option String) (org : Nat) : Option DB :=
  if userExists db org = true ∧ title.length ≤ 100 ∧ optLenLe loc 100 = true then
    Option.some { db with events := db.events ++
      [{ event_id := nextId (db.events.map (fun e => e.event_id)),
         title := title, event_description := desc, event_date := date,
         event_location := loc, organizer_id := org,
         created_at := now, updated_at := now }] }
  else Option.none

/-- Update an `Event` row by primary key. -/
def updateEvent (db : DB) (now eid : Nat) (title : String) (desc : Option String)
    (date : Option Nat) (loc : Option String) (org : Nat) : Option DB :=
  if eventExists db eid = true ∧ userExists db org = true
      ∧ title.length ≤ 100 ∧ optLenLe loc 100 = true then
    Option.some { db with events := (updRow (fun e => e.event_id) eid
      (fun e => { e with
          title := title,
          event_description := desc,
          event_date := date,
          event_location := loc,
          organizer_id := org,
          updated_at := now }) db.events) }
  else Option.none

/-- Insert an `EventRegistration` row: both parents must exist. -/
def insertEventRegistration (db : DB) (now eid uid : Nat)
    (rdate : Option Nat) : Option DB :=
  if eventExists db eid = true ∧ userExists db uid = true then
    Option.some { db with event_registrations := db.event_registrations ++
      [{ event_reg_id := nextId (db.event_registrations.map (fun r => r.event_reg_id)),
         event_id := eid, user_id := uid, registration_date := rdate,
         created_at := now, updated_at := now }] }
  else Option.none

/-- Update an `EventRegistration` row by primary key. -/
def updateEventRegistration (db : DB) (now regid eid uid : Nat)
    (rdate : Option Nat) : Option DB :=
  if registrationExists db regid = true ∧ eventExists db eid = true
      ∧ userExists db uid = true then
    Option.some { db with event_registrations := (updRow (fun r => r.event_reg_id) regid
      (fun r => { r with
          event_id := eid,
          user_id := uid,
          registration_date := rdate,
          updated_at := now }) db.event_registrations) }
  else Option.none

/-- Insert a `Resource` row: the uploading `User` must exist. -/
def insertResource (db : DB) (now : Nat) (title : String) (desc fp : Option String)
    (upl : Nat) : Option DB :=
  if userExists db upl = true ∧ title.length ≤ 100 ∧ optLenLe fp 255 = true then
    Option.some { db with resources := db.resources ++
      [{ resource_id := nextId (db.resources.map (fun r => r.resource_id)),
         title := title, resource_description := desc, file_path := fp,
         uploaded_by := upl, created_at := now, updated_at := now }] }
  else Option.none

/-- Update a `Resource` row by primary key. -/
def updateResource (db : DB) (now rid : Nat) (title : String) (desc fp : Option String)
    (upl : Nat) : Option DB :=
  if resourceExists db rid = true ∧ userExists db upl = true
      ∧ title.length ≤ 100 ∧ optLenLe fp 255 = true then
    Option.some { db with resources := (updRow (fun r => r.resource_id) rid
      (fun r => { r with
          title := title,
          resource_description := desc,
          file_path := fp,
          uploaded_by := upl,
          updated_at := now }) db.resources) }
  else Option.none

/-- Insert a `Class` row: the teaching `User` must exist. -/
def insertClass (db : DB) (now : Nat) (name : String) (tid : Nat) : Option DB :=
  if userExists db tid = true ∧ name.length ≤ 50 then
    Option.some { db with classes := db.classes ++
      [{ class_id := nextId (db.classes.map (fun c => c.class_id)),
         class_name := name, teacher_id := tid,
         created_at := now, updated_at := now }] }
  else Option.none

/-- Update a `Class` row by primary key. -/
def updateClass (db : DB) (now cid : Nat) (name : String) (tid : Nat) : Option DB :=
  if classExists db cid = true ∧ userExists db tid = true ∧ name.length ≤ 50 then
    Option.some { db with classes := (updRow (fun c => c.class_id) cid
      (fun c => { c with
          class_name := name,
          teacher_id := tid,
          updated_at := now }) db.classes) }
  else Option.none

/-- Insert a `Message` row: sender and receiver must exist; `sent_at` is
`auto_now_add`, so it is taken from the write clock, never the caller. -/
def insertMessage (db : DB) (now sid rid : Nat) (content : Option String)
    (isRead : Bool) : Option DB :=
  if userExists db sid = true ∧ userExists db rid = true then
    Option.some { db with messages := db.messages ++
      [{ message_id := nextId (db.messages.map (fun m => m.message_id)),
         sender_id := sid, receiver_id := rid, message_content := content,
         sent_at := now, is_read := isRead,
         created_at := now, updated_at := now }] }
  else Option.none

/-- Update a `Message` row by primary key; `sent_at` (`auto_now_add`) is
not among the written fields. -/
def updateMessage (db : DB) (now mid sid rid : Nat) (content : Option String)
    (isRead : Bool) : Option DB :=
  if messageExists db mid = true ∧ userExists db sid = true
      ∧ userExists db rid = true then
    Option.some { db with messages := (updRow (fun m => m.message_id) mid
      (fun m => { m with
          sender_id := sid,
          receiver_id := rid,
          message_content := content,
          is_read := isRead,
          updated_at := now }) db.messages) }
  else Option.none

/-- Insert a `SecurityIncident` row: the reporter must exist and
`report_status` must be one of the declared `choices`; `time_reported`
is `auto_now_add`, taken from the write clock, never the caller. -/
def insertSecurityIncident (db : DB) (now rid : Nat) (details : Option String)
    (status : String) : Option DB :=
  if userExists db rid = true ∧ status ∈ statusChoices ∧ status.length ≤ 20 then
    Option.some { db with security_incidents := db.security_incidents ++
      [{ security_id := nextId (db.security_incidents.map (fun s => s.security_id)),
         reporter_id := rid, incident_details := details,
         time_reported := now, report_status := status,
         created_at := now, updated_at := now }] }
  else Option.none

/-- Update a `SecurityIncident` row by primary key: the new
`report_status` must again be one of the declared `choices`; the update
places no constraint on the stored (previous) status value, and
`time_reported` (`auto_now_add`) is not among the written fields. -/
def updateSecurityIncident (db : DB) (now sid rid : Nat) (details : Option String)
    (status : String) : Option DB :=
  if incidentExists db sid = true ∧ userExists db rid = true
      ∧ status ∈ statusChoices ∧ status.length ≤ 20 then
    Option.some { db with security_incidents := (updRow (fun s => s.security_id) sid
      (fun s => { s with
          reporter_id := rid,
          incident_details := details,
          report_status := status,
          updated_at := now }) db.security_incidents) }
  else Option.none

/-- Insert an `Assignment` row: teacher and class must exist. -/
def insertAssignment (db : DB) (now : Nat) (title : String) (desc : Option String)
    (due : Option Nat) (tid cid : Nat) : Option DB :=
  if userExists db tid = true ∧ classExists db cid = true ∧ title.length ≤ 100 then
    Option.some { db with assignments := db.assignments ++
      [{ assignment_id := nextId (db.assignments.map (fun a => a.assignment_id)),
         title := title, assignment_description := desc, due_date := due,
         teacher_id := tid, class_id := cid,
         created_at := now, updated_at := now }] }
  else Option.none

/-- Update an `Assignment` row by primary key. -/
def updateAssignment (db : DB) (now aid : Nat) (title : String) (desc : Option String)
    (due : Option Nat) (tid cid : Nat) : Option DB :=
  if assignmentExists db aid = true ∧ userExists db tid = true
      ∧ classExists db cid = true ∧ title.length ≤ 100 then
    Option.some { db with assignments := (updRow (fun a => a.assignment_id) aid
      (fun a => { a with
          title := title,
          assignment_description := desc,
          due_date := due,
          teacher_id := tid,
          class_id := cid,
          updated_at := now }) db.assignments) }
  else Option.none

/-- Insert a `Grade` row: assignment and student must exist and the
nullable `score` must fit `DecimalField(max_digits=5, decimal_places=2)`. -/
def insertGrade (db : DB) (now aid sid : Nat) (score : Option Decimal)
    (gdate : Option Nat) : Option DB :=
  if assignmentExists db aid = true ∧ userExists db sid = true
      ∧ scoreOk score = true then
    Option.some { db with grades := db.grades ++
      [{ grade_id := nextId (db.grades.map (fun g => g.grade_id)),
         assignment_id := aid, student_id := sid, score := score,
         grading_date := gdate, created_at := now, updated_at := now }] }
  else Option.none

/-- Update a `Grade` row by primary key. -/
def updateGrade (db : DB) (now gid aid sid : Nat) (score : Option Decimal)
    (gdate : Option Nat) : Option DB :=
  if gradeExists db gid = true ∧ assignmentExists db aid = true
      ∧ userExists db sid = true ∧ scoreOk score = true then
    Option.some { db with grades := (updRow (fun g => g.grade_id) gid
      (fun g => { g with
          assignment_id := aid,
          student_id := sid,
          score := score,
          grading_date := gdate,
          updated_at := now }) db.grades) }
  else Option.none

/-- Ids of the `Assignment` rows matched by `p`. -/
def doomedAssignments (db : DB) (p : Assignment → Bool) : List Nat :=
  (db.assignments.filter p).map (fun a => a.assignment_id)

/-- Delete every `Assignment` row matched by `p`, cascading to the
`Grade` rows that reference a deleted assignment. -/
def deleteAssignmentsBy (db : DB) (p : Assignment → Bool) : DB :=
  { db with
      assignments := db.assignments.filter (fun a => !(p a)),
      grades := db.grades.filter
        (fun g => !((doomedAssignments db p).contains g.assignment_id)) }

/-- Ids of the `Class` rows matched by `p`. -/
def doomedClasses (db : DB) (p : Class → Bool) : List Nat :=
  (db.classes.filter p).map (fun c => c.class_id)

/-- Delete every `Class` row matched by `p`, cascading to the
`Assignment` rows of a deleted class and transitively to their grades. -/
def deleteClassesBy (db : DB) (p : Class → Bool) : DB :=
  deleteAssignmentsBy { db with classes := db.classes.filter (fun c => !(p c)) }
    (fun a => (doomedClasses db p).contains a.class_id)

/-- Ids of the `Event` rows matched by `p`. -/
def doomedEvents (db : DB) (p : Event → Bool) : List Nat :=
  (db.events.filter p).map (fun e => e.event_id)

/-- Delete every `Event` row matched by `p`, cascading to the
`EventRegistration` rows of a deleted event. -/
def deleteEventsBy (db : DB) (p : Event → Bool) : DB :=
  { db with
      events := db.events.filter (fun e => !(p e)),
      event_registrations := db.event_registrations.filter
        (fun r => !((doomedEvents db p).contains r.event_id)) }

/-- Ids of the `User` rows matched by `p`. -/
def doomedUsers (db : DB) (p : User → Bool) : List Nat :=
  (db.users.filter p).map (fun u => u.user_id)

/-- Remove the rows that reference a deleted user directly and have no
further dependents of their own: registrations, resources, messages
(sender or receiver), incidents, grades. -/
def pruneUserLeafRows (db : DB) (doomed : List Nat) : DB :=
  { db with
      event_registrations := db.event_registrations.filter
        (fun r => !(doomed.contains r.user_id)),
      resources := db.resources.filter (fun r => !(doomed.contains r.uploaded_by)),
      messages := db.messages.filter
        (fun m => !(doomed.contains m.sender_id || doomed.contains m.receiver_id)),
      security_incidents := db.security_incidents.filter
        (fun s => !(doomed.contains s.reporter_id)),
      grades := db.grades.filter (fun g => !(doomed.contains g.student_id)) }

/-- Delete every `User` row matched by `p` and cascade over every
foreign key that references `User`: organized events (with their
registrations), taught classes (with their assignments and grades),
authored assignments (with their grades), and the direct dependents. -/
def deleteUsersBy (db : DB) (p : User → Bool) : DB :=
  pruneUserLeafRows
    (deleteAssignmentsBy
      (deleteClassesBy
        (deleteEventsBy { db with users := db.users.filter (fun u => !(p u)) }
          (fun e => (doomedUsers db p).contains e.organizer_id))
        (fun c => (doomedUsers db p).contains c.teacher_id))
      (fun a => (doomedUsers db p).contains a.teacher_id))
    (doomedUsers db p)

/-- Delete the `User` row with the given primary key, cascading. -/
def deleteUser (db : DB) (uid : Nat) : DB :=
  deleteUsersBy db (fun u => u.user_id == uid)

/-- Ids of the `Role` rows with the given primary key. -/
def doomedRoles (db : DB) (rid : Nat) : List Nat :=
  (db.roles.filter (fun r => r.role_id == rid)).map (fun r => r.role_id)

/-- Delete the `Role` row with the given primary key, cascading to the
users of that role and transitively to all their dependents. -/
def deleteRole (db : DB) (rid : Nat) : DB :=
  deleteUsersBy { db with roles := db.roles.filter (fun r => !(r.role_id == rid)) }
    (fun u => (doomedRoles db rid).contains u.role_id)

/-- A Python value as returned by a `__str__` method: the methods of the
source return strings, but also raw `date`, `Decimal` and `None` field
values. -/
inductive PyVal
  | str (s : String)
  | date (ordinal : Nat)
  | dec (d : Decimal)
  | pynone
deriving DecidableEq

/-- Python string interpolation of a nullable text field: `None`
interpolates as the text `"None"`. -/
def optStrPy (o : Option String) : String :=
  match o with
  | Option.none => "None"
  | Option.some s => s

/-- `Role.__str__`: returns `self.role_name`. -/
def Role.pyStr (r : Role) : PyVal :=
  PyVal.str r.role_name

/-- `User.__str__`: the f-string
`f'{self.first_name} {self.last_name}  {self.email_address}'`
(one space after the first name, two spaces after the last name,
exactly as in models.py line 44). -/
def User.pyStr (u : User) : PyVal :=
  PyVal.str (u.first_name ++ " " ++ u.last_name ++ "  " ++ u.email_address)

/-- `Event.__str__`: `f'{self.title} {self.event_description}'`. -/
def Event.pyStr (e : Event) : PyVal :=
  PyVal.str (e.title ++ " " ++ optStrPy e.event_description)

/-- `EventRegistration.__str__`: returns `self.registration_date`
unconverted — a `datetime.date` (or `None`), not a string. -/
def EventRegistration.pyStr (r : EventRegistration) : PyVal :=
  match r.registration_date with
  | Option.none => PyVal.pynone
  | Option.some d => PyVal.date d

/-- `Resource.__str__`: `f'{self.title} {self.resource_description}'`. -/
def Resource.pyStr (r : Resource) : PyVal :=
  PyVal.str (r.title ++ " " ++ optStrPy r.resource_description)

/-- `Class.__str__`: returns `self.class_name`. -/
def Class.pyStr (c : Class) : PyVal :=
  PyVal.str c.class_name

/-- `Message.__str__`: returns `self.message_content`, a nullable text
field, so the returned value is `None` when the content is null. -/
def Message.pyStr (m : Message) : PyVal :=
  match m.message_content with
  | Option.none => PyVal.pynone
  | Option.some s => PyVal.str s

/-- `SecurityIncident.__str__`: returns `self.incident_details`. -/
def SecurityIncident.pyStr (s : SecurityIncident) : PyVal :=
  match s.incident_details with
  | Option.none => PyVal.pynone
  | Option.some t => PyVal.str t

/-- `Assignment.__str__`: `f'{self.title} {self.assignment_description}'`. -/
def Assignment.pyStr (a : Assignment) : PyVal :=
  PyVal.str (a.title ++ " " ++ optStrPy a.assignment_description)

/-- `Grade.__str__`: returns `self.score` unconverted — a `Decimal`
(or `None`), not a string. -/
def Grade.pyStr (g : Grade) : PyVal :=
  match g.score with
  | Option.none => PyVal.pynone
  | Option.some d => PyVal.dec d

/-- Python's builtin `str(obj)` applied to the value a `__str__` method
returned: it yields a string only when the method returned one; any
other return type raises `TypeError`, modelled as `Option.none`. -/
def strCall (v : PyVal) : Option String :=
  match v with
  | PyVal.str s => Option.some s
  | _ => Option.none

/-- A small concrete database used to instantiate the theorems: one
role, two users and one row of each dependent table, all satisfying the
declared constraints. -/
def sampleDB : DB :=
  { roles := [{ role_id := 1, role_name := "Teacher", created_at := 0, updated_at := 0 }],
    users :=
      [{ user_id := 1, role_id := 1, first_name := "Grace", last_name := "Hopper",
         email_address := "grace@example.org", user_password := "h1",
         phone_number := "0700", created_at := 0, updated_at := 0 },
       { user_id := 2, role_id := 1, first_name := "Alan", last_name := "Turing",
         email_address := "alan@example.org", user_password := "h2",
         phone_number := "0701", created_at := 0, updated_at := 0 }],
    events := [{ event_id := 1, title := "Fair", event_description := Option.some "science fair",
                 event_date := Option.some 10, event_location := Option.none,
                 organizer_id := 1, created_at := 0, updated_at := 0 }],
    event_registrations := [{ event_reg_id := 1, event_id := 1, user_id := 2,
                              registration_date := Option.some 11,
                              created_at := 0, updated_at := 0 }],
    resources := [{ resource_id := 1, title := "Notes", resource_description := Option.none,
                    file_path := Option.some "n.pdf", uploaded_by := 1,
                    created_at := 0, updated_at := 0 }],
    classes := [{ class_id := 1, class_name := "Math", teacher_id := 1,
                  created_at := 0, updated_at := 0 }],
    messages := [{ message_id := 1, sender_id := 1, receiver_id := 2,
                   message_content := Option.some "hi", sent_at := 2, is_read := false,
                   created_at := 2, updated_at := 2 }],
    security_incidents := [{ security_id := 1, reporter_id := 2,
                             incident_details := Option.some "lost key", time_reported := 3,
                             report_status := "Resolved", created_at := 3, updated_at := 3 }],
    assignments := [{ assignment_id := 1, title := "HW1", assignment_description := Option.none,
                      due_date := Option.some 20, teacher_id := 1, class_id := 1,
                      created_at := 0, updated_at := 0 }],
    grades := [{ grade_id := 1, assignment_id := 1, student_id := 2,
                 score := Option.some { mantissa := 855, scale := 1 },
                 grading_date := Option.some 21, created_at := 0, updated_at := 0 }] }

/-- Every element surviving a filter satisfies any test implied by the
filter's own predicate. -/
theorem all_of_filter {α : Type} (l : List α) (q p : α → Bool)
    (h : ∀ a, q a = true → p a = true) : ((l.filter q).all p) = true := by
  rw [List.all_eq_true]
  intro a ha
  exact h a (List.of_mem_filter ha)

/-- An id for which a matching row exists appears among the collected
ids of the rows matching it. -/
theorem contains_of_any {α : Type} (l : List α) (f : α → Nat) (id : Nat)
    (h : l.any (fun x => f x == id) = true) :
    ((l.filter (fun x => f x == id)).map (fun x => f x)).contains id = true := by
  rw [List.any_eq_true] at h
  obtain ⟨x, hx, hbx⟩ := h
  have hmf : x ∈ l.filter (fun x => f x == id) := List.mem_filter.mpr ⟨hx, hbx⟩
  have hmm : f x ∈ (l.filter (fun x => f x == id)).map (fun x => f x) :=
    List.mem_map_of_mem _ hmf
  have hfx : f x = id := eq_of_beq hbx
  rw [hfx] at hmm
  exact List.elem_iff.mpr hmm

/-- A value a doomed-id list does not contain differs from any id the
list does contain. -/
theorem ne_survivor {doomed : List Nat} {x uid : Nat}
    (hid : doomed.contains uid = true) (hx : doomed.contains x = false) :
    (x != uid) = true := by
  by_cases hxe : x = uid
  · subst hxe
    rw [hid] at hx
    cases hx
  · simp [bne, beq_eq_false_iff_ne.mpr hxe]

/-- C1: deleting an existing User removes every dependent row in every
table referencing it — events it organizes, resources it uploaded,
classes it teaches, messages it sent or received, incidents it
reported, assignments it authored, grades naming it as student, and
registrations naming it as user — and deleting an existing Role removes
every User of that role. -/
theorem c1_cascade_delete (db : DB) (uid rid : Nat) :
    (userExists db uid = true →
      ((deleteUser db uid).users.all (fun u => u.user_id != uid)) = true
      ∧ ((deleteUser db uid).events.all (fun e => e.organizer_id != uid)) = true
      ∧ ((deleteUser db uid).resources.all (fun r => r.uploaded_by != uid)) = true
      ∧ ((deleteUser db uid).classes.all (fun c => c.teacher_id != uid)) = true
      ∧ ((deleteUser db uid).messages.all
          (fun m => m.sender_id != uid && m.receiver_id != uid)) = true
      ∧ ((deleteUser db uid).security_incidents.all
          (fun s => s.reporter_id != uid)) = true
      ∧ ((deleteUser db uid).assignments.all (fun a => a.teacher_id != uid)) = true
      ∧ ((deleteUser db uid).grades.all (fun g => g.student_id != uid)) = true
      ∧ ((deleteUser db uid).event_registrations.all
          (fun r => r.user_id != uid)) = true)
  ∧ (roleExists db rid = true →
      ((deleteRole db rid).roles.all (fun r => r.role_id != rid)) = true
      ∧ ((deleteRole db rid).users.all (fun u => u.role_id != rid)) = true) := by
  constructor
  · intro hu
    have hid : (doomedUsers db (fun u => u.user_id == uid)).contains uid = true :=
      contains_of_any db.users (fun u => u.user_id) uid hu
    refine ⟨?_, ?_, ?_, ?_, ?_, ?_, ?_, ?_, ?_⟩
    · apply all_of_filter
      intro u hq
      simpa [bne] using hq
    · apply all_of_filter
      intro e hq
      rw [Bool.not_eq_true'] at hq
      exact ne_survivor hid hq
    · apply all_of_filter
      intro r hq
      rw [Bool.not_eq_true'] at hq
      exact ne_survivor hid hq
    · apply all_of_filter
      intro c hq
      rw [Bool.not_eq_true'] at hq
      exact ne_survivor hid hq
    · apply all_of_filter
      intro m hq
      rw [Bool.not_eq_true'] at hq
      rw [Bool.or_eq_false_iff] at hq
      simp [ne_survivor hid hq.1, ne_survivor hid hq.2]
    · apply all_of_filter
      intro s hq
      rw [Bool.not_eq_true'] at hq
      exact ne_survivor hid hq
    · apply all_of_filter
      intro a hq
      rw [Bool.not_eq_true'] at hq
      exact ne_survivor hid hq
    · apply all_of_filter
      intro g hq
      rw [Bool.not_eq_true'] at hq
      exact ne_survivor hid hq
    · apply all_of_filter
      intro r hq
      rw [Bool.not_eq_true'] at hq
      exact ne_survivor hid hq
  · intro hr
    have hid : (doomedRoles db rid).contains rid = true :=
      contains_of_any db.roles (fun r => r.role_id) rid hr
    constructor
    · apply all_of_filter
      intro r hq
      simpa [bne] using hq
    · apply all_of_filter
      intro u hq
      rw [Bool.not_eq_true'] at hq
      exact ne_survivor hid hq

/-- Witness for C1 at the sample database: user 1 and role 1 exist, and
the cascades empty every referencing table of them. -/
theorem c1_witness :
    userExists sampleDB 1 = true ∧ roleExists sampleDB 1 = true
  ∧ ((deleteUser sampleDB 1).events.all (fun e => e.organizer_id != 1)) = true
  ∧ ((deleteUser sampleDB 1).classes.all (fun c => c.teacher_id != 1)) = true
  ∧ ((deleteRole sampleDB 1).users.all (fun u => u.role_id != 1)) = true := by
  refine ⟨by decide, by decide, ?_, ?_, ?_⟩
  · exact ((c1_cascade_delete sampleDB 1 1).1 (by decide)).2.1
  · exact ((c1_cascade_delete sampleDB 1 1).1 (by decide)).2.2.2.1
  · exact ((c1_cascade_delete sampleDB 1 1).2 (by decide)).2

/-- Pairwise uniqueness of the `User` table: primary keys, email
addresses and phone numbers pairwise distinct, as enforced by the
`AutoField` primary key and the two `unique=True` columns. -/
@[reducible] def usersUnique (db : DB) : Prop :=
  db.users.Pairwise (fun a b =>
    a.user_id ≠ b.user_id ∧ a.email_address ≠ b.email_address
      ∧ a.phone_number ≠ b.phone_number)

/-- Every member of a list of naturals is bounded by their folded
maximum. -/
theorem le_foldr_max (l : List Nat) (x : Nat) (hx : x ∈ l) :
    x ≤ l.foldr Nat.max 0 := by
  induction l with
  | nil => cases hx
  | cons a t ih =>
    rcases List.mem_cons.mp hx with h | h
    · subst h
      exact Nat.le_max_left _ _
    · exact Nat.le_trans (ih h) (Nat.le_max_right _ _)

/-- C2: inserting a User that repeats an existing email address or
phone number fails, and pairwise uniqueness of emails and phone numbers
(together with primary keys) is preserved by every operation that
touches the Users table: insert, update, user delete and role delete. -/
theorem c2_unique_email_phone (db : DB) (now uid rid : Nat)
    (fn ln em pw ph : String) :
    ((db.users.any (fun u => u.email_address == em) = true
        ∨ db.users.any (fun u => u.phone_number == ph) = true) →
      insertUser db now rid fn ln em pw ph = Option.none)
  ∧ (usersUnique db → ∀ db',
      insertUser db now rid fn ln em pw ph = Option.some db' → usersUnique db')
  ∧ (usersUnique db → ∀ db',
      updateUser db now uid rid fn ln em pw ph = Option.some db' → usersUnique db')
  ∧ (usersUnique db → usersUnique (deleteUser db uid))
  ∧ (usersUnique db → usersUnique (deleteRole db rid)) := by
  refine ⟨?_, ?_, ?_, ?_, ?_⟩
  · intro hdup
    unfold insertUser
    rw [if_neg]
    intro hc
    rcases hdup with hd | hd
    · rw [hc.2.1] at hd
      exact Bool.false_ne_true hd
    · rw [hc.2.2.1] at hd
      exact Bool.false_ne_true hd
  · intro hU db' h
    unfold insertUser at h
    split at h
    case isTrue hc =>
      obtain rfl := Option.some.inj h
      refine List.pairwise_append.mpr ⟨hU, List.pairwise_singleton _ _, ?_⟩
      intro a ha b hb
      rw [List.mem_singleton] at hb
      subst hb
      refine ⟨?_, ?_, ?_⟩
      · intro heq
        have hle : a.user_id ≤ (db.users.map (fun u => u.user_id)).foldr Nat.max 0 :=
          le_foldr_max _ _ (List.mem_map_of_mem _ ha)
        rw [heq] at hle
        simp [nextId] at hle
      · intro heq
        exact List.any_eq_false.mp hc.2.1 a ha (by simp [heq])
      · intro heq
        exact List.any_eq_false.mp hc.2.2.1 a ha (by simp [heq])
    case isFalse => simp at h
  · intro hU db' h
    unfold updateUser at h
    split at h
    case isTrue hc =>
      obtain rfl := Option.some.inj h
      show List.Pairwise _ (updRow (fun u => u.user_id) uid _ db.users)
      rw [updRow, List.pairwise_map]
      refine List.Pairwise.imp_of_mem ?_ hU
      intro a b ha hb hab
      by_cases hA : a.user_id = uid <;> by_cases hB : b.user_id = uid
      · exact absurd (hA.trans hB.symm) hab.1
      · simp only [beq_iff_eq, if_pos hA, if_neg hB]
        refine ⟨hab.1, ?_, ?_⟩
        · intro heq
          apply List.any_eq_false.mp hc.2.2.1 b hb
          have h1 : (b.user_id != uid) = true := by
            simp [bne, beq_eq_false_iff_ne.mpr hB]
          have h2 : (b.email_address == em) = true := by simp [heq]
          simp [h1, h2]
        · intro heq
          apply List.any_eq_false.mp hc.2.2.2.1 b hb
          have h1 : (b.user_id != uid) = true := by
            simp [bne, beq_eq_false_iff_ne.mpr hB]
          have h2 : (b.phone_number == ph) = true := by simp [heq]
          simp [h1, h2]
      · simp only [beq_iff_eq, if_neg hA, if_pos hB]
        refine ⟨hab.1, ?_, ?_⟩
        · intro heq
          apply List.any_eq_false.mp hc.2.2.1 a ha
          have h1 : (a.user_id != uid) = true := by
            simp [bne, beq_eq_false_iff_ne.mpr hA]
          have h2 : (a.email_address == em) = true := by simp [heq]
          simp [h1, h2]
        · intro heq
          apply List.any_eq_false.mp hc.2.2.2.1 a ha
          have h1 : (a.user_id != uid) = true := by
            simp [bne, beq_eq_false_iff_ne.mpr hA]
          have h2 : (a.phone_number == ph) = true := by simp [heq]
          simp [h1, h2]
      · simp only [beq_iff_eq, if_neg hA, if_neg hB]
        exact hab
    case isFalse => simp at h
  · intro hU
    show List.Pairwise _ (db.users.filter (fun u => !(u.user_id == uid)))
    exact List.Pairwise.sublist (List.filter_sublist _) hU
  · intro hU
    show List.Pairwise _
      (db.users.filter (fun u => !((doomedRoles db rid).contains u.role_id)))
    exact List.Pairwise.sublist (List.filter_sublist _) hU

/-- Witness for C2 at the sample database: repeating an existing email
or phone makes the insert fail, and uniqueness survives a fresh insert,
an update and the cascading deletes. -/
theorem c2_witness :
    sampleDB.users.any (fun u => u.email_address == "grace@example.org") = true
  ∧ insertUser sampleDB 5 1 "Ann" "Bee" "grace@example.org" "p" "0999" = Option.none
  ∧ usersUnique sampleDB
  ∧ usersUnique ((insertUser sampleDB 5 1 "Ada" "Lovelace" "ada@example.org" "h3" "0702").getD sampleDB)
  ∧ usersUnique ((updateUser sampleDB 6 1 1 "Grace" "Murray" "gm@example.org" "h1" "0700").getD sampleDB)
  ∧ usersUnique (deleteUser sampleDB 1)
  ∧ usersUnique (deleteRole sampleDB 1) := by
  refine ⟨by decide, ?_, by decide, ?_, ?_, ?_, ?_⟩
  · exact (c2_unique_email_phone sampleDB 5 1 1 "Ann" "Bee" "grace@example.org" "p" "0999").1
      (Or.inl (by decide))
  · exact (c2_unique_email_phone sampleDB 5 1 1 "Ada" "Lovelace" "ada@example.org" "h3" "0702").2.1
      (by decide) _ (by rfl)
  · exact (c2_unique_email_phone sampleDB 6 1 1 "Grace" "Murray" "gm@example.org" "h1" "0700").2.2.1
      (by decide) _ (by rfl)
  · exact (c2_unique_email_phone sampleDB 0 1 1 "a" "a" "a" "a" "a").2.2.2.1 (by decide)
  · exact (c2_unique_email_phone sampleDB 0 1 1 "a" "a" "a" "a" "a").2.2.2.2 (by decide)

/-- C3: a SecurityIncident write — insert or update — succeeds only
when `report_status` is one of the three declared choice values
"Reported", "Under Investigation", "Resolved"; any other value is
rejected by the storage layer. -/
theorem c3_status_choices (db : DB) (now rid sid : Nat) (det : Option String)
    (st : String) :
    ((insertSecurityIncident db now rid det st).isSome = true → st ∈ statusChoices)
  ∧ ((updateSecurityIncident db now sid rid det st).isSome = true → st ∈ statusChoices) := by
  constructor
  · intro h
    unfold insertSecurityIncident at h
    split at h
    case isTrue hc => exact hc.2.1
    case isFalse => simp at h
  · intro h
    unfold updateSecurityIncident at h
    split at h
    case isTrue hc => exact hc.2.2.1
    case isFalse => simp at h

/-- Witness for C3 at the sample database: a successful insert and a
successful update, whose status values the theorem places among the
three choices. -/
theorem c3_witness :
    (insertSecurityIncident sampleDB 5 1 Option.none ("Reported")).isSome = true
  ∧ (updateSecurityIncident sampleDB 6 1 2 Option.none ("Under Investigation")).isSome = true
  ∧ ("Reported" ∈ statusChoices)
  ∧ ("Under Investigation" ∈ statusChoices) := by
  refine ⟨by decide, by decide, ?_, ?_⟩
  · exact (c3_status_choices sampleDB 5 1 1 Option.none ("Reported")).1 (by decide)
  · exact (c3_status_choices sampleDB 6 2 1 Option.none ("Under Investigation")).2 (by decide)

/-- C8: no transition order is enforced on `report_status` — an update
writing any valid status value succeeds whatever valid value the stored
row currently has, so every transition among the three values,
including Resolved back to Reported, is legal. -/
theorem c8_any_status_transition (db : DB) (now sid rid : Nat) (det : Option String)
    (s1 s2 : String) (_h1 : s1 ∈ statusChoices) (h2 : s2 ∈ statusChoices)
    (hrow : db.security_incidents.any
      (fun r => r.security_id == sid && r.report_status == s1) = true)
    (hfk : userExists db rid = true) :
    (updateSecurityIncident db now sid rid det s2).isSome = true := by
  have hex : incidentExists db sid = true := by
    rw [List.any_eq_true] at hrow
    obtain ⟨r, hr, hb⟩ := hrow
    rw [Bool.and_eq_true] at hb
    unfold incidentExists
    rw [List.any_eq_true]
    exact ⟨r, hr, hb.1⟩
  have hlen : s2.length ≤ 20 := by
    have h2c : s2 = "Reported" ∨ s2 = "Under Investigation" ∨ s2 = "Resolved" := by
      simpa [statusChoices] using h2
    rcases h2c with rfl | rfl | rfl <;> decide
  unfold updateSecurityIncident
  rw [if_pos ⟨hex, hfk, h2, hlen⟩]
  rfl

/-- Witness for C8 at the sample database: its incident is stored as
Resolved, and an update writing Reported succeeds — the reverse of the
informal Reported to Resolved direction. -/
theorem c8_witness :
    ("Resolved" ∈ statusChoices)
  ∧ ("Reported" ∈ statusChoices)
  ∧ sampleDB.security_incidents.any
      (fun r => r.security_id == 1 && r.report_status == "Resolved") = true
  ∧ userExists sampleDB 2 = true
  ∧ (updateSecurityIncident sampleDB 7 1 2 Option.none ("Reported")).isSome = true := by
  refine ⟨by decide, by decide, by decide, by decide, ?_⟩
  exact c8_any_status_transition sampleDB 7 1 2 Option.none ("Resolved") ("Reported")
    (by decide) (by decide) (by decide) (by decide)

/-- C5: cascading delete is transitive — after inserting a Role, then a
User of that role, then a Class taught by that User, each of the three
tables holds one row, and deleting the Role empties all three. -/
theorem c5_transitive_cascade :
    ((insertRole emptyDB 0 ("Teacher")).bind (fun d1 =>
        (insertUser d1 1 1 ("Grace") ("Hopper") ("g@x.io") ("pw") ("0700")).bind (fun d2 =>
          insertClass d2 2 ("Mathematics") 1))).map
      (fun d => (d.roles.length, d.users.length, d.classes.length,
                 (deleteRole d 1).roles, (deleteRole d 1).users, (deleteRole d 1).classes))
      = Option.some (1, 1, 1, ([] : List Role), ([] : List User), ([] : List Class)) := by rfl

/-- Shape of every insert: the new table is the old one with a single
appended row carrying both timestamps from the write clock. -/
def StampedInsert {α : Type} (created updated : α → Nat) (now : Nat)
    (old new : List α) : Prop :=
  ∃ r, new = old ++ [r] ∧ created r = now ∧ updated r = now

/-- Shape of every update: same row count; `created_at` untouched at
every position; `updated_at` stamped with the write clock on the
matched row; unmatched rows wholly unchanged. -/
def StampedUpdate {α : Type} (pk created updated : α → Nat) (id now : Nat)
    (old new : List α) : Prop :=
  new.length = old.length ∧
    ∀ i (h : i < old.length) (h2 : i < new.length),
      created (new.get ⟨i, h2⟩) = created (old.get ⟨i, h⟩)
      ∧ (pk (old.get ⟨i, h⟩) = id → updated (new.get ⟨i, h2⟩) = now)
      ∧ (pk (old.get ⟨i, h⟩) ≠ id → new.get ⟨i, h2⟩ = old.get ⟨i, h⟩)

/-- A numeric field preserved pointwise across a table rewrite. -/
def FieldKept {α : Type} (f : α → Nat) (old new : List α) : Prop :=
  new.length = old.length ∧
    ∀ i (h : i < old.length) (h2 : i < new.length),
      f (new.get ⟨i, h2⟩) = f (old.get ⟨i, h⟩)

/-- Indexing an `updRow` result: the matched rows are rewritten by `g`,
the rest are returned as they were. -/
theorem updRow_get {α : Type} (pk : α → Nat) (id : Nat) (g : α → α) (l : List α)
    (i : Nat) (h : i < l.length) (h2 : i < (updRow pk id g l).length) :
    (updRow pk id g l).get ⟨i, h2⟩
      = if pk (l.get ⟨i, h⟩) == id then g (l.get ⟨i, h⟩) else l.get ⟨i, h⟩ := by
  simp [updRow, List.get_eq_getElem, List.getElem_map]

/-- `updRow` with a rewrite that keeps the primary key and `created_at`
and stamps `updated_at` realises the update shape. -/
theorem stampedUpdate_updRow {α : Type} (pk created updated : α → Nat) (id now : Nat)
    (g : α → α) (l : List α)
    (hc : ∀ r, created (g r) = created r)
    (hu : ∀ r, updated (g r) = now) :
    StampedUpdate pk created updated id now l (updRow pk id g l) := by
  refine ⟨by simp [updRow], ?_⟩
  intro i h h2
  rw [updRow_get pk id g l i h h2]
  by_cases hid : pk (l.get ⟨i, h⟩) = id
  · rw [if_pos (beq_iff_eq.mpr hid)]
    exact ⟨hc _, fun _ => hu _, fun hne => absurd hid hne⟩
  · rw [if_neg (fun hb => hid (beq_iff_eq.mp hb))]
    exact ⟨rfl, fun hEq => absurd hEq hid, fun _ => rfl⟩

/-- `updRow` with a rewrite that does not touch a field keeps that
field at every position. -/
theorem fieldKept_updRow {α : Type} (pk : α → Nat) (f : α → Nat) (id : Nat)
    (g : α → α) (l : List α) (hf : ∀ r, f (g r) = f r) :
    FieldKept f l (updRow pk id g l) := by
  refine ⟨by simp [updRow], ?_⟩
  intro i h h2
  rw [updRow_get pk id g l i h h2]
  by_cases hid : (pk (l.get ⟨i, h⟩) == id) = true
  · rw [if_pos hid]
    exact hf _
  · rw [if_neg hid]

/-- C4: for each of the ten entities, a successful insert appends one
row whose `created_at` and `updated_at` both equal the write clock, and
a successful update keeps every row's `created_at`, stamps the matched
row's `updated_at` with the write clock and leaves all other rows
unchanged. -/
theorem c4_timestamps (db : DB) (now : Nat) :
    (∀ name db', insertRole db now name = Option.some db' →
      StampedInsert (fun r => r.created_at) (fun r => r.updated_at) now db.roles db'.roles)
  ∧ (∀ rid name db', updateRole db now rid name = Option.some db' →
      StampedUpdate (fun r => r.role_id) (fun r => r.created_at) (fun r => r.updated_at)
        rid now db.roles db'.roles)
  ∧ (∀ rid fn ln em pw ph db', insertUser db now rid fn ln em pw ph = Option.some db' →
      StampedInsert (fun u => u.created_at) (fun u => u.updated_at) now db.users db'.users)
  ∧ (∀ uid rid fn ln em pw ph db', updateUser db now uid rid fn ln em pw ph = Option.some db' →
      StampedUpdate (fun u => u.user_id) (fun u => u.created_at) (fun u => u.updated_at)
        uid now db.users db'.users)
  ∧ (∀ title desc date loc org db', insertEvent db now title desc date loc org = Option.some db' →
      StampedInsert (fun e => e.created_at) (fun e => e.updated_at) now db.events db'.events)
  ∧ (∀ eid title desc date loc org db', updateEvent db now eid title desc date loc org = Option.some db' →
      StampedUpdate (fun e => e.event_id) (fun e => e.created_at) (fun e => e.updated_at)
        eid now db.events db'.events)
  ∧ (∀ eid uid rdate db', insertEventRegistration db now eid uid rdate = Option.some db' →
      StampedInsert (fun r => r.created_at) (fun r => r.updated_at) now
        db.event_registrations db'.event_registrations)
  ∧ (∀ regid eid uid rdate db', updateEventRegistration db now regid eid uid rdate = Option.some db' →
      StampedUpdate (fun r => r.event_reg_id) (fun r => r.created_at) (fun r => r.updated_at)
        regid now db.event_registrations db'.event_registrations)
  ∧ (∀ title desc fp upl db', insertResource db now title desc fp upl = Option.some db' →
      StampedInsert (fun r => r.created_at) (fun r => r.updated_at) now db.resources db'.resources)
  ∧ (∀ rid title desc fp upl db', updateResource db now rid title desc fp upl = Option.some db' →
      StampedUpdate (fun r => r.resource_id) (fun r => r.created_at) (fun r => r.updated_at)
        rid now db.resources db'.resources)
  ∧ (∀ name tid db', insertClass db now name tid = Option.some db' →
      StampedInsert (fun c => c.created_at) (fun c => c.updated_at) now db.classes db'.classes)
  ∧ (∀ cid name tid db', updateClass db now cid name tid = Option.some db' →
      StampedUpdate (fun c => c.class_id) (fun c => c.created_at) (fun c => c.updated_at)
        cid now db.classes db'.classes)
  ∧ (∀ sid rid content isRead db', insertMessage db now sid rid content isRead = Option.some db' →
      StampedInsert (fun m => m.created_at) (fun m => m.updated_at) now db.messages db'.messages)
  ∧ (∀ mid sid rid content isRead db', updateMessage db now mid sid rid content isRead = Option.some db' →
      StampedUpdate (fun m => m.message_id) (fun m => m.created_at) (fun m => m.updated_at)
        mid now db.messages db'.messages)
  ∧ (∀ rid det st db', insertSecurityIncident db now rid det st = Option.some db' →
      StampedInsert (fun s => s.created_at) (fun s => s.updated_at) now
        db.security_incidents db'.security_incidents)
  ∧ (∀ sid rid det st db', updateSecurityIncident db now sid rid det st = Option.some db' →
      StampedUpdate (fun s => s.security_id) (fun s => s.created_at) (fun s => s.updated_at)
        sid now db.security_incidents db'.security_incidents)
  ∧ (∀ title desc due tid cid db', insertAssignment db now title desc due tid cid = Option.some db' →
      StampedInsert (fun a => a.created_at) (fun a => a.updated_at) now db.assignments db'.assignments)
  ∧ (∀ aid title desc due tid cid db', updateAssignment db now aid title desc due tid cid = Option.some db' →
      StampedUpdate (fun a => a.assignment_id) (fun a => a.created_at) (fun a => a.updated_at)
        aid now db.assignments db'.assignments)
  ∧ (∀ aid sid score gdate db', insertGrade db now aid sid score gdate = Option.some db' →
      StampedInsert (fun g => g.created_at) (fun g => g.updated_at) now db.grades db'.grades)
  ∧ (∀ gid aid sid score gdate db', updateGrade db now gid aid sid score gdate = Option.some db' →
      StampedUpdate (fun g => g.grade_id) (fun g => g.created_at) (fun g => g.updated_at)
        gid now db.grades db'.grades) := by
  refine ⟨?_, ?_, ?_, ?_, ?_, ?_, ?_, ?_, ?_, ?_, ?_, ?_, ?_, ?_, ?_, ?_, ?_, ?_, ?_, ?_⟩
  · intro name db' h
    unfold insertRole at h
    split at h
    case isTrue =>
      obtain rfl := Option.some.inj h
      exact ⟨_, rfl, rfl, rfl⟩
    case isFalse => simp at h
  · intro rid name db' h
    unfold updateRole at h
    split at h
    case isTrue =>
      obtain rfl := Option.some.inj h
      exact stampedUpdate_updRow _ _ _ _ _ _ _ (fun _ => rfl) (fun _ => rfl)
    case isFalse => simp at h
  · intro rid fn ln em pw ph db' h
    unfold insertUser at h
    split at h
    case isTrue =>
      obtain rfl := Option.some.inj h
      exact ⟨_, rfl, rfl, rfl⟩
    case isFalse => simp at h
  · intro uid rid fn ln em pw ph db' h
    unfold updateUser at h
    split at h
    case isTrue =>
      obtain rfl := Option.some.inj h
      exact stampedUpdate_updRow _ _ _ _ _ _ _ (fun _ => rfl) (fun _ => rfl)
    case isFalse => simp at h
  · intro title desc date loc org db' h
    unfold insertEvent at h
    split at h
    case isTrue =>
      obtain rfl := Option.some.inj h
      exact ⟨_, rfl, rfl, rfl⟩
    case isFalse => simp at h
  · intro eid title desc date loc org db' h
    unfold updateEvent at h
    split at h
    case isTrue =>
      obtain rfl := Option.some.inj h
      exact stampedUpdate_updRow _ _ _ _ _ _ _ (fun _ => rfl) (fun _ => rfl)
    case isFalse => simp at h
  · intro eid uid rdate db' h
    unfold insertEventRegistration at h
    split at h
    case isTrue =>
      obtain rfl := Option.some.inj h
      exact ⟨_, rfl, rfl, rfl⟩
    case isFalse => simp at h
  · intro regid eid uid rdate db' h
    unfold updateEventRegistration at h
    split at h
    case isTrue =>
      obtain rfl := Option.some.inj h
      exact stampedUpdate_updRow _ _ _ _ _ _ _ (fun _ => rfl) (fun _ => rfl)
    case isFalse => simp at h
  · intro title desc fp upl db' h
    unfold insertResource at h
    split at h
    case isTrue =>
      obtain rfl := Option.some.inj h
      exact ⟨_, rfl, rfl, rfl⟩
    case isFalse => simp at h
  · intro rid title desc fp upl db' h
    unfold updateResource at h
    split at h
    case isTrue =>
      obtain rfl := Option.some.inj h
      exact stampedUpdate_updRow _ _ _ _ _ _ _ (fun _ => rfl) (fun _ => rfl)
    case isFalse => simp at h
  · intro name tid db' h
    unfold insertClass at h
    split at h
    case isTrue =>
      obtain rfl := Option.some.inj h
      exact ⟨_, rfl, rfl, rfl⟩
    case isFalse => simp at h
  · intro cid name tid db' h
    unfold updateClass at h
    split at h
    case isTrue =>
      obtain rfl := Option.some.inj h
      exact stampedUpdate_updRow _ _ _ _ _ _ _ (fun _ => rfl) (fun _ => rfl)
    case isFalse => simp at h
  · intro sid rid content isRead db' h
    unfold insertMessage at h
    split at h
    case isTrue =>
      obtain rfl := Option.some.inj h
      exact ⟨_, rfl, rfl, rfl⟩
    case isFalse => simp at h
  · intro mid sid rid content isRead db' h
    unfold updateMessage at h
    split at h
    case isTrue =>
      obtain rfl := Option.some.inj h
      exact stampedUpdate_updRow _ _ _ _ _ _ _ (fun _ => rfl) (fun _ => rfl)
    case isFalse => simp at h
  · intro rid det st db' h
    unfold insertSecurityIncident at h
    split at h
    case isTrue =>
      obtain rfl := Option.some.inj h
      exact ⟨_, rfl, rfl, rfl⟩
    case isFalse => simp at h
  · intro sid rid det st db' h
    unfold updateSecurityIncident at h
    split at h
    case isTrue =>
      obtain rfl := Option.some.inj h
      exact stampedUpdate_updRow _ _ _ _ _ _ _ (fun _ => rfl) (fun _ => rfl)
    case isFalse => simp at h
  · intro title desc due tid cid db' h
    unfold insertAssignment at h
    split at h
    case isTrue =>
      obtain rfl := Option.some.inj h
      exact ⟨_, rfl, rfl, rfl⟩
    case isFalse => simp at h
  · intro aid title desc due tid cid db' h
    unfold updateAssignment at h
    split at h
    case isTrue =>
      obtain rfl := Option.some.inj h
      exact stampedUpdate_updRow _ _ _ _ _ _ _ (fun _ => rfl) (fun _ => rfl)
    case isFalse => simp at h
  · intro aid sid score gdate db' h
    unfold insertGrade at h
    split at h
    case isTrue =>
      obtain rfl := Option.some.inj h
      exact ⟨_, rfl, rfl, rfl⟩
    case isFalse => simp at h
  · intro gid aid sid score gdate db' h
    unfold updateGrade at h
    split at h
    case isTrue =>
      obtain rfl := Option.some.inj h
      exact stampedUpdate_updRow _ _ _ _ _ _ _ (fun _ => rfl) (fun _ => rfl)
    case isFalse => simp at h

/-- Witness for C4 at the sample database: one successful insert and
one successful update of each of the ten entities, each satisfying the
timestamp shape at write clock 7. -/
theorem c4_witness :
    StampedInsert (fun r => r.created_at) (fun r => r.updated_at) 7 sampleDB.roles
      ((insertRole sampleDB 7 ("Staff")).getD sampleDB).roles
  ∧ StampedUpdate (fun r => r.role_id) (fun r => r.created_at) (fun r => r.updated_at) 1 7
      sampleDB.roles ((updateRole sampleDB 7 1 ("Lead")).getD sampleDB).roles
  ∧ StampedInsert (fun u => u.created_at) (fun u => u.updated_at) 7 sampleDB.users
      ((insertUser sampleDB 7 1 ("Ada") ("Lovelace") ("ada@example.org") ("h3") ("0702")).getD sampleDB).users
  ∧ StampedUpdate (fun u => u.user_id) (fun u => u.created_at) (fun u => u.updated_at) 1 7
      sampleDB.users
      ((updateUser sampleDB 7 1 1 ("Grace") ("Hopper") ("grace@example.org") ("h1") ("0700")).getD sampleDB).users
  ∧ StampedInsert (fun e => e.created_at) (fun e => e.updated_at) 7 sampleDB.events
      ((insertEvent sampleDB 7 ("Expo") Option.none Option.none Option.none 1).getD sampleDB).events
  ∧ StampedUpdate (fun e => e.event_id) (fun e => e.created_at) (fun e => e.updated_at) 1 7
      sampleDB.events
      ((updateEvent sampleDB 7 1 ("Fair") Option.none Option.none Option.none 2).getD sampleDB).events
  ∧ StampedInsert (fun r => r.created_at) (fun r => r.updated_at) 7 sampleDB.event_registrations
      ((insertEventRegistration sampleDB 7 1 1 Option.none).getD sampleDB).event_registrations
  ∧ StampedUpdate (fun r => r.event_reg_id) (fun r => r.created_at) (fun r => r.updated_at) 1 7
      sampleDB.event_registrations
      ((updateEventRegistration sampleDB 7 1 1 2 Option.none).getD sampleDB).event_registrations
  ∧ StampedInsert (fun r => r.created_at) (fun r => r.updated_at) 7 sampleDB.resources
      ((insertResource sampleDB 7 ("Slides") Option.none Option.none 2).getD sampleDB).resources
  ∧ StampedUpdate (fun r => r.resource_id) (fun r => r.created_at) (fun r => r.updated_at) 1 7
      sampleDB.resources
      ((updateResource sampleDB 7 1 ("Notes") Option.none Option.none 1).getD sampleDB).resources
  ∧ StampedInsert (fun c => c.created_at) (fun c => c.updated_at) 7 sampleDB.classes
      ((insertClass sampleDB 7 ("Physics") 2).getD sampleDB).classes
  ∧ StampedUpdate (fun c => c.class_id) (fun c => c.created_at) (fun c => c.updated_at) 1 7
      sampleDB.classes ((updateClass sampleDB 7 1 ("Maths") 1).getD sampleDB).classes
  ∧ StampedInsert (fun m => m.created_at) (fun m => m.updated_at) 7 sampleDB.messages
      ((insertMessage sampleDB 7 2 1 Option.none false).getD sampleDB).messages
  ∧ StampedUpdate (fun m => m.message_id) (fun m => m.created_at) (fun m => m.updated_at) 1 7
      sampleDB.messages ((updateMessage sampleDB 7 1 2 1 Option.none true).getD sampleDB).messages
  ∧ StampedInsert (fun s => s.created_at) (fun s => s.updated_at) 7 sampleDB.security_incidents
      ((insertSecurityIncident sampleDB 7 1 Option.none ("Reported")).getD sampleDB).security_incidents
  ∧ StampedUpdate (fun s => s.security_id) (fun s => s.created_at) (fun s => s.updated_at) 1 7
      sampleDB.security_incidents
      ((updateSecurityIncident sampleDB 7 1 2 Option.none ("Reported")).getD sampleDB).security_incidents
  ∧ StampedInsert (fun a => a.created_at) (fun a => a.updated_at) 7 sampleDB.assignments
      ((insertAssignment sampleDB 7 ("HW2") Option.none Option.none 1 1).getD sampleDB).assignments
  ∧ StampedUpdate (fun a => a.assignment_id) (fun a => a.created_at) (fun a => a.updated_at) 1 7
      sampleDB.assignments
      ((updateAssignment sampleDB 7 1 ("HW1") Option.none Option.none 2 1).getD sampleDB).assignments
  ∧ StampedInsert (fun g => g.created_at) (fun g => g.updated_at) 7 sampleDB.grades
      ((insertGrade sampleDB 7 1 1 Option.none Option.none).getD sampleDB).grades
  ∧ StampedUpdate (fun g => g.grade_id) (fun g => g.created_at) (fun g => g.updated_at) 1 7
      sampleDB.grades
      ((updateGrade sampleDB 7 1 1 2 (Option.some { mantissa := 90, scale := 0 }) Option.none).getD sampleDB).grades := by
  obtain ⟨pa, pb, pc, pd, pe, pf, pg, ph, pi, pj, pk, pl, pm, pn, po, pp, pq, pr, ps, pt⟩ :=
    c4_timestamps sampleDB 7
  exact ⟨pa ("Staff") _ (by rfl), pb 1 ("Lead") _ (by rfl),
    pc 1 ("Ada") ("Lovelace") ("ada@example.org") ("h3") ("0702") _ (by rfl),
    pd 1 1 ("Grace") ("Hopper") ("grace@example.org") ("h1") ("0700") _ (by rfl),
    pe ("Expo") Option.none Option.none Option.none 1 _ (by rfl),
    pf 1 ("Fair") Option.none Option.none Option.none 2 _ (by rfl),
    pg 1 1 Option.none _ (by rfl), ph 1 1 2 Option.none _ (by rfl),
    pi ("Slides") Option.none Option.none 2 _ (by rfl),
    pj 1 ("Notes") Option.none Option.none 1 _ (by rfl),
    pk ("Physics") 2 _ (by rfl), pl 1 ("Maths") 1 _ (by rfl),
    pm 2 1 Option.none false _ (by rfl), pn 1 2 1 Option.none true _ (by rfl),
    po 1 Option.none ("Reported") _ (by rfl), pp 1 2 Option.none ("Reported") _ (by rfl),
    pq ("HW2") Option.none Option.none 1 1 _ (by rfl),
    pr 1 ("HW1") Option.none Option.none 2 1 _ (by rfl),
    ps 1 1 Option.none Option.none _ (by rfl),
    pt 1 1 2 (Option.some { mantissa := 90, scale := 0 }) Option.none _ (by rfl)⟩

/-- C10: `time_reported` on SecurityIncident and `sent_at` on Message
are `auto_now_add` fields: the insert operations take no caller value
for them — they stamp them with the write clock — and the update
operations leave them untouched at every position. -/
theorem c10_auto_now_add (db : DB) (now : Nat) :
    (∀ rid det st db', insertSecurityIncident db now rid det st = Option.some db' →
      ∃ r, db'.security_incidents = db.security_incidents ++ [r] ∧ r.time_reported = now)
  ∧ (∀ sid rid det st db', updateSecurityIncident db now sid rid det st = Option.some db' →
      FieldKept (fun s => s.time_reported) db.security_incidents db'.security_incidents)
  ∧ (∀ sid rid content isRead db', insertMessage db now sid rid content isRead = Option.some db' →
      ∃ m, db'.messages = db.messages ++ [m] ∧ m.sent_at = now)
  ∧ (∀ mid sid rid content isRead db',
      updateMessage db now mid sid rid content isRead = Option.some db' →
      FieldKept (fun m => m.sent_at) db.messages db'.messages) := by
  refine ⟨?_, ?_, ?_, ?_⟩
  · intro rid det st db' h
    unfold insertSecurityIncident at h
    split at h
    case isTrue =>
      obtain rfl := Option.some.inj h
      exact ⟨_, rfl, rfl⟩
    case isFalse => simp at h
  · intro sid rid det st db' h
    unfold updateSecurityIncident at h
    split at h
    case isTrue =>
      obtain rfl := Option.some.inj h
      exact fieldKept_updRow _ _ _ _ _ (fun _ => rfl)
    case isFalse => simp at h
  · intro sid rid content isRead db' h
    unfold insertMessage at h
    split at h
    case isTrue =>
      obtain rfl := Option.some.inj h
      exact ⟨_, rfl, rfl⟩
    case isFalse => simp at h
  · intro mid sid rid content isRead db' h
    unfold updateMessage at h
    split at h
    case isTrue =>
      obtain rfl := Option.some.inj h
      exact fieldKept_updRow _ _ _ _ _ (fun _ => rfl)
    case isFalse => simp at h

/-- Witness for C10 at the sample database: an insert of each kind at
clock 9 stamps the auto field, and an update of each kind keeps it. -/
theorem c10_witness :
    (∃ r, ((insertSecurityIncident sampleDB 9 1 Option.none ("Reported")).getD
        sampleDB).security_incidents
        = sampleDB.security_incidents ++ [r] ∧ r.time_reported = 9)
  ∧ FieldKept (fun s => s.time_reported) sampleDB.security_incidents
      ((updateSecurityIncident sampleDB 9 1 2 Option.none ("Resolved")).getD
        sampleDB).security_incidents
  ∧ (∃ m, ((insertMessage sampleDB 9 1 2 Option.none false).getD sampleDB).messages
        = sampleDB.messages ++ [m] ∧ m.sent_at = 9)
  ∧ FieldKept (fun m => m.sent_at) sampleDB.messages
      ((updateMessage sampleDB 9 1 1 2 Option.none false).getD sampleDB).messages := by
  obtain ⟨pa, pb, pc, pd⟩ := c10_auto_now_add sampleDB 9
  exact ⟨pa 1 Option.none ("Reported") _ (by rfl),
    pb 1 2 Option.none ("Resolved") _ (by rfl),
    pc 1 2 Option.none false _ (by rfl),
    pd 1 1 2 Option.none false _ (by rfl)⟩

/-- C6 (amended): a Grade insert carrying a score succeeds exactly when
the referenced assignment and student exist and the score passes the
`DecimalField(5, 2)` digit check: at most 5 total digits, at most 2
decimal places, and at most 3 digits before the decimal point. -/
theorem c6_score_format (db : DB) (now aid sid : Nat) (d : Decimal)
    (gdate : Option Nat) :
    (insertGrade db now aid sid (Option.some d) gdate).isSome = true
      ↔ (assignmentExists db aid = true ∧ userExists db sid = true
          ∧ decTotalDigits d ≤ 5 ∧ decDecimalPlaces d ≤ 2
          ∧ decTotalDigits d - decDecimalPlaces d ≤ 3) := by
  constructor
  · intro h
    unfold insertGrade at h
    split at h
    case isTrue hc =>
      refine ⟨hc.1, hc.2.1, ?_⟩
      have hs := hc.2.2
      simp only [scoreOk, decimalCheck, Bool.and_eq_true, decide_eq_true_eq] at hs
      exact ⟨hs.1.1, hs.1.2, hs.2⟩
    case isFalse => simp at h
  · intro hand
    obtain ⟨h1, h2, h3, h4, h5⟩ := hand
    unfold insertGrade
    have hs : scoreOk (Option.some d) = true := by
      simp only [scoreOk, decimalCheck, Bool.and_eq_true, decide_eq_true_eq]
      exact ⟨⟨h3, h4⟩, h5⟩
    rw [if_pos ⟨h1, h2, hs⟩]
    rfl

/-- C6 counterexample: the value 1234.5 — five total digits, one
decimal place — satisfies the claim's acceptance condition and both
referenced rows exist, yet the insert is rejected: stored with two
decimal places the value needs four digits before the point, one more
than `DecimalField(5, 2)` leaves room for. The claim's rejection
example 123.456 is indeed rejected. -/
theorem c6_counterexample :
    decTotalDigits { mantissa := 12345, scale := 1 } ≤ 5
  ∧ decDecimalPlaces { mantissa := 12345, scale := 1 } ≤ 2
  ∧ assignmentExists sampleDB 1 = true
  ∧ userExists sampleDB 2 = true
  ∧ insertGrade sampleDB 9 1 2 (Option.some { mantissa := 12345, scale := 1 })
      Option.none = Option.none
  ∧ insertGrade sampleDB 9 1 2 (Option.some { mantissa := 123456, scale := 3 })
      Option.none = Option.none := by decide

/-- C7 counterexample: the source `__str__` of User puts two spaces
before the email address, so Grace Hopper's label differs from the
single-spaced concatenation the claim asserts. -/
theorem c7_counterexample :
    User.pyStr { user_id := 1, role_id := 1, first_name := "Grace", last_name := "Hopper",
                 email_address := "grace@example.org", user_password := "h1",
                 phone_number := "0700", created_at := 0, updated_at := 0 }
      ≠ PyVal.str ("Grace Hopper grace@example.org") := by decide

/-- C7 (amended): a User's label is first name, one space, last name,
two spaces, email address — so its length is the three field lengths
plus three separator characters — and an Event's label is its title,
one space, and its interpolated description. -/
theorem c7_labels (u : User) (e : Event) :
    User.pyStr u = PyVal.str (u.first_name ++ " " ++ u.last_name ++ "  " ++ u.email_address)
  ∧ (∀ s, User.pyStr u = PyVal.str s →
      s.length = u.first_name.length + u.last_name.length + u.email_address.length + 3)
  ∧ Event.pyStr e = PyVal.str (e.title ++ " " ++ optStrPy e.event_description)
  ∧ (∀ s, Event.pyStr e = PyVal.str s →
      s.length = e.title.length + (optStrPy e.event_description).length + 1) := by
  refine ⟨rfl, ?_, rfl, ?_⟩
  · intro s hs
    unfold User.pyStr at hs
    injection hs with h
    subst h
    have l1 : (" " : String).length = 1 := rfl
    have l2 : ("  " : String).length = 2 := rfl
    simp [String.length_append, l1, l2]
    omega
  · intro s hs
    unfold Event.pyStr at hs
    injection hs with h
    subst h
    have l1 : (" " : String).length = 1 := rfl
    simp [String.length_append, l1]
    omega

/-- A concrete user for the C7 witness. -/
def annUser : User :=
  { user_id := 3, role_id := 1, first_name := "Ann", last_name := "Bee",
    email_address := "ab@x.io", user_password := "p", phone_number := "1",
    created_at := 0, updated_at := 0 }

/-- A concrete event for the C7 witness. -/
def expoEvent : Event :=
  { event_id := 3, title := "Expo", event_description := Option.none,
    event_date := Option.none, event_location := Option.none,
    organizer_id := 1, created_at := 0, updated_at := 0 }

/-- Witness for C7: the concrete labels of a concrete user and event,
with the length equations instantiated on them. -/
theorem c7_witness :
    User.pyStr annUser = PyVal.str ("Ann Bee  ab@x.io")
  ∧ ("Ann Bee  ab@x.io" : String).length
      = annUser.first_name.length + annUser.last_name.length
        + annUser.email_address.length + 3
  ∧ Event.pyStr expoEvent = PyVal.str ("Expo None")
  ∧ ("Expo None" : String).length
      = expoEvent.title.length + (optStrPy expoEvent.event_description).length + 1 := by
  refine ⟨by rfl, ?_, by rfl, ?_⟩
  · exact (c7_labels annUser expoEvent).2.1 ("Ann Bee  ab@x.io") (by rfl)
  · exact (c7_labels annUser expoEvent).2.2.2 ("Expo None") (by rfl)

/-- C9: the label operation does not return a string for every entity —
`str()` on an EventRegistration whose `registration_date` is set
raises `TypeError`, because `__str__` returns the raw date value, and
likewise on a Grade whose `score` is set `__str__` returns the raw
decimal; a well-formed method such as `Role.__str__` does yield the
string. -/
theorem c9_label_not_string :
    strCall (EventRegistration.pyStr
      { event_reg_id := 1, event_id := 1, user_id := 2,
        registration_date := Option.some 11, created_at := 0, updated_at := 0 })
      = Option.none
  ∧ EventRegistration.pyStr
      { event_reg_id := 1, event_id := 1, user_id := 2,
        registration_date := Option.some 11, created_at := 0, updated_at := 0 }
      = PyVal.date 11
  ∧ strCall (Grade.pyStr
      { grade_id := 1, assignment_id := 1, student_id := 2,
        score := Option.some { mantissa := 855, scale := 1 },
        grading_date := Option.some 21, created_at := 0, updated_at := 0 })
      = Option.none
  ∧ Grade.pyStr
      { grade_id := 1, assignment_id := 1, student_id := 2,
        score := Option.some { mantissa := 855, scale := 1 },
        grading_date := Option.some 21, created_at := 0, updated_at := 0 }
      = PyVal.dec { mantissa := 855, scale := 1 }
  ∧ strCall (Role.pyStr { role_id := 1, role_name := "Teacher", created_at := 0, updated_at := 0 })
      = Option.some ("Teacher") := by decide

end SchoolVibe
